import Mathlib

/-!
Shallow embedding of the response-classification core of
`src/api-client-utils/src/lib.rs`.

The HTTP transport is modelled by its observable result (`TransportOutcome`):
each of the three fallible transport steps (build, execute, read-body) either
fails with an opaque transport error (modelled as a `String`) or the request
completes with a method, URL, status code and raw body text.  The wire format's
decode capability (`SerialFormat::from_str`, instantiated at the two target
shapes) is modelled by two explicit decoder functions `String → Except E α`,
where `E` is the format's decode-error type (`F::Error`).  Status codes are
the standard numeric HTTP codes (`Nat`); reqwest's `StatusCode::is_success`
is the 2xx range.
-/

namespace ApiClientUtils

/-- `reqwest::StatusCode::is_success`: the conventional 2xx range. -/
def is_success (s : Nat) : Bool := 200 ≤ s && s < 300

/-- `context::RespContext`: immutable snapshot captured after execution —
method, URL, observed status code, raw response body text. -/
structure RespContext where
  method : String
  url : String
  got_status : Nat
  response_text : String
deriving DecidableEq, Repr

/-- `context::OkRespWithContext`: a decoded success body with its context. -/
structure OkRespWithContext (Body : Type) where
  ok_body : Body
  context : RespContext
deriving DecidableEq, Repr

/-- `error::ClientErr<ErrResp, F>`: the closed error taxonomy.  `E` stands for
the format's decode-error type `F::Error`; the opaque `reqwest::Error` values
carried by the three transport variants are modelled as strings. -/
inductive ClientErr (ErrResp E : Type) where
  | BuildRequest (e : String)
  | ExecuteRequest (e : String)
  | ReadRespBodyText (e : String)
  | ExpectedErrorResponse (context : Option RespContext)
  | ExpectedStatus (context : RespContext) (expected_status : Nat)
  | DeserializeError (context : RespContext) (deserialize_error : E)
  | ErrorResponse (context : RespContext) (err_body : ErrResp)
deriving DecidableEq, Repr

/-- `ClientErr::context`: the three transport variants carry no context;
every other variant carries one (optionally, for `ExpectedErrorResponse`). -/
def ClientErr.context {ErrResp E : Type} : ClientErr ErrResp E → Option RespContext
  | .BuildRequest _ => none
  | .ExecuteRequest _ => none
  | .ReadRespBodyText _ => none
  | .ExpectedErrorResponse context => context
  | .ExpectedStatus context _ => some context
  | .DeserializeError context _ => some context
  | .ErrorResponse context _ => some context

/-- `ClientErr::response_text`: the raw body text via the context, if any. -/
def ClientErr.response_text {ErrResp E : Type} (self : ClientErr ErrResp E) : Option String :=
  self.context.map (fun ctx => ctx.response_text)

/-- `RespContext::expect_status`: fail with `ExpectedStatus` (context cloned)
when the observed status differs from the expected one. -/
def RespContext.expect_status {ErrResp E : Type} (self : RespContext) (expect_status : Nat) :
    Except (ClientErr ErrResp E) Unit :=
  if self.got_status ≠ expect_status then
    .error (.ExpectedStatus self expect_status)
  else
    .ok ()

/-- `ClientErr::try_into_err_resp`: narrow an outcome against an expected
status.  When a context exists its status is checked first (`?` propagates the
`ExpectedStatus` failure); then an `ErrorResponse` yields its decoded body and
every other variant is returned unchanged as the failure. -/
def ClientErr.try_into_err_resp {ErrResp E : Type} (self : ClientErr ErrResp E)
    (expect_status : Nat) : Except (ClientErr ErrResp E) ErrResp :=
  match self.context with
  | some ctx =>
    match (ctx.expect_status expect_status : Except (ClientErr ErrResp E) Unit) with
    | .error e => .error e
    | .ok _ =>
      match self with
      | .ErrorResponse _ source => .ok source
      | other => .error other
  | none =>
    match self with
    | .ErrorResponse _ source => .ok source
    | other => .error other

/-- The transport capability's observable result for one request: the three
fallible steps (build, execute, read body text) each may fail; otherwise the
request completed with a method, URL, observed status and raw body text. -/
inductive TransportOutcome where
  | buildFail (e : String)
  | execFail (e : String)
  | readFail (e : String)
  | completed (method url : String) (got_status : Nat) (body : String)
deriving DecidableEq, Repr

/-- `ExpectResp::partial_expect`: the core classifier.  Build, execute and
read-body failures terminate with the corresponding transport variant; then
the context is snapshotted and the status selects which shape to decode:
non-success decodes `ErrResp` (→ `ErrorResponse` / `DeserializeError`),
success decodes `Ok` (→ `Ok` with context / `DeserializeError`). -/
def partial_expect {Ok ErrResp E : Type} (t : TransportOutcome)
    (from_str_ok : String → Except E Ok) (from_str_err : String → Except E ErrResp) :
    Except (ClientErr ErrResp E) (OkRespWithContext Ok) :=
  match t with
  | .buildFail e => .error (.BuildRequest e)
  | .execFail e => .error (.ExecuteRequest e)
  | .readFail e => .error (.ReadRespBodyText e)
  | .completed method url got_status body =>
    let context : RespContext :=
      { method := method, url := url, got_status := got_status, response_text := body }
    if ¬ is_success got_status then
      match from_str_err context.response_text with
      | .ok source => .error (.ErrorResponse context source)
      | .error deserialize_error => .error (.DeserializeError context deserialize_error)
    else
      match from_str_ok context.response_text with
      | .ok v => .ok { ok_body := v, context := context }
      | .error deserialize_error => .error (.DeserializeError context deserialize_error)

/-- `ExpectResp::partial_expect`, instrumented: the same classification logic
with a count of how many times a decoder is invoked during the execution. -/
def partial_expect_instr {Ok ErrResp E : Type} (t : TransportOutcome)
    (from_str_ok : String → Except E Ok) (from_str_err : String → Except E ErrResp) :
    Except (ClientErr ErrResp E) (OkRespWithContext Ok) × Nat :=
  match t with
  | .buildFail e => (.error (.BuildRequest e), 0)
  | .execFail e => (.error (.ExecuteRequest e), 0)
  | .readFail e => (.error (.ReadRespBodyText e), 0)
  | .completed method url got_status body =>
    let context : RespContext :=
      { method := method, url := url, got_status := got_status, response_text := body }
    if ¬ is_success got_status then
      match from_str_err context.response_text with
      | .ok source => (.error (.ErrorResponse context source), 1)
      | .error deserialize_error => (.error (.DeserializeError context deserialize_error), 1)
    else
      match from_str_ok context.response_text with
      | .ok v => (.ok { ok_body := v, context := context }, 1)
      | .error deserialize_error => (.error (.DeserializeError context deserialize_error), 1)

/-- `ExpectResp::expect_ok`: return only the decoded `Ok` body. -/
def expect_ok {Ok ErrResp E : Type} (t : TransportOutcome)
    (from_str_ok : String → Except E Ok) (from_str_err : String → Except E ErrResp) :
    Except (ClientErr ErrResp E) Ok :=
  (partial_expect t from_str_ok from_str_err).map (fun ok => ok.ok_body)

/-- `ExpectResp::expect_err_resp`: assert the caller expects an error; an `Ok`
classification becomes `ExpectedErrorResponse` (with its context), an error
classification is narrowed against the expected status. -/
def expect_err_resp {Ok ErrResp E : Type} (t : TransportOutcome)
    (from_str_ok : String → Except E Ok) (from_str_err : String → Except E ErrResp)
    (expect_status : Nat) : Except (ClientErr ErrResp E) ErrResp :=
  match partial_expect t from_str_ok from_str_err with
  | .ok ok => .error (.ExpectedErrorResponse (some ok.context))
  | .error err => err.try_into_err_resp expect_status

namespace ResultExt

/-- `ResultExt::try_into_err_resp` on `ApiResult<Ok, ErrResp, F>`: a success
result becomes `ExpectedErrorResponse { context: None }`; an error result is
narrowed via `ClientErr::try_into_err_resp`. -/
def try_into_err_resp {Ok ErrResp E : Type} (self : Except (ClientErr ErrResp E) Ok)
    (expect_status : Nat) : Except (ClientErr ErrResp E) ErrResp :=
  match self with
  | .ok _ => .error (.ExpectedErrorResponse none)
  | .error err => err.try_into_err_resp expect_status

end ResultExt

/-- Rust `str::trim`: strip whitespace from both ends of the string. -/
def rust_trim (s : String) : String :=
  ⟨((s.data.dropWhile Char.isWhitespace).reverse.dropWhile Char.isWhitespace).reverse⟩

/-- Rust `str::trim_end_matches(c)`: strip every trailing occurrence of `c`. -/
def trim_end_matches (s : String) (c : Char) : String :=
  ⟨((s.data.reverse.dropWhile (fun x => x == c)).reverse)⟩

/-- Rust `str::trim_start_matches(c)`: strip every leading occurrence of `c`. -/
def trim_start_matches (s : String) (c : Char) : String :=
  ⟨s.data.dropWhile (fun x => x == c)⟩

/-- `ApiClient::path`: `format!("{origin}/{path}")` where `origin` is the
whitespace-trimmed base URL with trailing slashes removed and `path` is the
whitespace-trimmed url path with leading slashes removed. -/
def path (base_url url_path : String) : String :=
  let origin := trim_end_matches (rust_trim base_url) '/'
  let p := trim_start_matches (rust_trim url_path) '/'
  origin ++ "/" ++ p

/-- The spec's description of URL joining, written from its words: the
whitespace-trimmed base with trailing slashes removed, then a single `'/'`,
then the whitespace-trimmed path with leading slashes removed. -/
def join_spec (base_url url_path : String) : String :=
  trim_end_matches (rust_trim base_url) '/' ++ "/" ++
    trim_start_matches (rust_trim url_path) '/'

/-- The one-line core message of `Display for ClientErr` (`error_msg_core` in
the source), given renderers for the error body and the decode error. -/
def ClientErr.error_msg_core {ErrResp E : Type} (show_err : ErrResp → String)
    (show_de : E → String) : ClientErr ErrResp E → String
  | .BuildRequest e => "Failed building request: " ++ e
  | .ExecuteRequest e => "Failed executing request: " ++ e
  | .ReadRespBodyText e => "Failed reading response text: " ++ e
  | .ExpectedErrorResponse _ => "Expected error response, got success"
  | .ExpectedStatus context expected_status =>
      "Expected status: " ++ toString expected_status ++ ", got: " ++
        toString context.got_status
  | .DeserializeError context deserialize_error =>
      "Failed deserializing JSON response: " ++ show_de deserialize_error ++
        ", response_body: " ++ context.response_text
  | .ErrorResponse _ source => "Got API error response: " ++ show_err source

/-- `Display for ClientErr`: when a context exists, a `"{method} {url}"` line;
then the one-line core message; then the raw response text when available. -/
def ClientErr.display {ErrResp E : Type} (show_err : ErrResp → String)
    (show_de : E → String) (self : ClientErr ErrResp E) : String :=
  (match self.context with
   | some ctx => ctx.method ++ " " ++ ctx.url ++ "\n"
   | none => "") ++
  (self.error_msg_core show_err show_de ++ "\n") ++
  (match self.response_text with
   | some response_text => response_text ++ "\n"
   | none => "")

/-- `needle` occurs contiguously inside `haystack`. -/
def ContainsStr (haystack needle : String) : Prop :=
  ∃ a b : String, haystack = a ++ needle ++ b

/-- C1: when transport succeeds and the observed status is a success (2xx)
code, classification returns `Ok` exactly when the body decodes as the `Ok`
shape, carrying that exact decoded value and a context whose status equals the
observed status; a failed decode yields `DeserializeError` with that decode
error and the same context, never an `Ok` with a default or coerced value. -/
theorem partial_expect_success_classification {Ok ErrResp E : Type}
    (method url : String) (got_status : Nat) (body : String)
    (from_str_ok : String → Except E Ok) (from_str_err : String → Except E ErrResp)
    (hs : is_success got_status = true) :
    (∀ v, from_str_ok body = .ok v →
      partial_expect (.completed method url got_status body) from_str_ok from_str_err =
        .ok { ok_body := v,
              context := { method := method, url := url, got_status := got_status,
                           response_text := body } }) ∧
    (∀ de, from_str_ok body = .error de →
      partial_expect (.completed method url got_status body) from_str_ok from_str_err =
        .error (.DeserializeError
          { method := method, url := url, got_status := got_status, response_text := body }
          de)) ∧
    (∀ ok, partial_expect (.completed method url got_status body) from_str_ok from_str_err =
        .ok ok →
      from_str_ok body = .ok ok.ok_body ∧ ok.context.got_status = got_status) := by
  refine ⟨fun v h => by simp [partial_expect, hs, h], fun de h => by simp [partial_expect, hs, h],
    fun ok h => ?_⟩
  simp only [partial_expect, hs, Bool.not_true, Bool.false_eq_true, if_false, ite_false,
    not_true_eq_false] at h
  cases hv : from_str_ok body with
  | ok v =>
    rw [hv] at h
    cases h
    exact ⟨rfl, rfl⟩
  | error de =>
    rw [hv] at h
    cases h

/-- C1 witness: a 200 response whose body decodes as `7`. -/
theorem partial_expect_success_classification_witness :
    partial_expect (E := String) (.completed "GET" "http://h/x" 200 "7")
      (fun _ => .ok (7 : Nat)) (fun _ => .ok (0 : Nat)) =
      .ok { ok_body := 7,
            context := { method := "GET", url := "http://h/x", got_status := 200,
                         response_text := "7" } } :=
  (partial_expect_success_classification "GET" "http://h/x" 200 "7"
      (fun _ => .ok (7 : Nat)) (fun _ => .ok (0 : Nat)) (by decide)).1 7 rfl

/-- C2: when transport succeeds and the observed status is a non-success
(non-2xx) code, classification decodes the body as the `ErrShape`: decode
success yields `ErrorResponse` with the decoded value and the context, decode
failure yields `DeserializeError` with the `ErrShape` decode error and the
context. -/
theorem partial_expect_error_classification {Ok ErrResp E : Type}
    (method url : String) (got_status : Nat) (body : String)
    (from_str_ok : String → Except E Ok) (from_str_err : String → Except E ErrResp)
    (hs : is_success got_status = false) :
    (∀ v, from_str_err body = .ok v →
      partial_expect (.completed method url got_status body) from_str_ok from_str_err =
        .error (.ErrorResponse
          { method := method, url := url, got_status := got_status, response_text := body }
          v)) ∧
    (∀ de, from_str_err body = .error de →
      partial_expect (.completed method url got_status body) from_str_ok from_str_err =
        .error (.DeserializeError
          { method := method, url := url, got_status := got_status, response_text := body }
          de)) := by
  exact ⟨fun v h => by simp [partial_expect, hs, h], fun de h => by simp [partial_expect, hs, h]⟩

/-- C2 witness: a 404 response whose body decodes as the error shape `5`. -/
theorem partial_expect_error_classification_witness :
    partial_expect (.completed "GET" "http://h/x" 404 "5")
      (fun _ => (.error "not ok" : Except String Nat)) (fun _ => .ok (5 : Nat)) =
      .error (.ErrorResponse
        { method := "GET", url := "http://h/x", got_status := 404, response_text := "5" }
        5) :=
  (partial_expect_error_classification "GET" "http://h/x" 404 "5"
      (fun _ => .error "not ok") (fun _ => .ok (5 : Nat)) (by decide)).1 5 rfl

/-- C3: the status alone selects which shape is decoded — the classification
outcome is independent of the non-selected decoder (runs differing only in it
yield identical outcomes) — and the instrumented classifier shows the decoder
is invoked at most once per execution. -/
theorem partial_expect_single_decode {Ok ErrResp E : Type} (t : TransportOutcome)
    (fok fok' : String → Except E Ok) (ferr ferr' : String → Except E ErrResp) :
    ((∀ m u s b, t = .completed m u s b → is_success s = true) →
      partial_expect t fok ferr = partial_expect t fok ferr') ∧
    ((∀ m u s b, t = .completed m u s b → is_success s = false) →
      partial_expect t fok ferr = partial_expect t fok' ferr) ∧
    (partial_expect_instr t fok ferr).1 = partial_expect t fok ferr ∧
    (partial_expect_instr t fok ferr).2 ≤ 1 := by
  obtain e | e | e | ⟨m, u, s, b⟩ := t
  · exact ⟨fun _ => rfl, fun _ => rfl, rfl, by simp [partial_expect_instr]⟩
  · exact ⟨fun _ => rfl, fun _ => rfl, rfl, by simp [partial_expect_instr]⟩
  · exact ⟨fun _ => rfl, fun _ => rfl, rfl, by simp [partial_expect_instr]⟩
  · refine ⟨fun h => ?_, fun h => ?_, ?_, ?_⟩
    · have hs := h m u s b rfl
      simp [partial_expect, hs]
    · have hs := h m u s b rfl
      simp [partial_expect, hs]
    · by_cases hs : is_success s
      · cases hv : fok b <;> simp [partial_expect, partial_expect_instr, hs, hv]
      · cases hv : ferr b <;>
          simp [partial_expect, partial_expect_instr, eq_false_of_ne_true hs, hv]
    · by_cases hs : is_success s
      · cases hv : fok b <;> simp [partial_expect_instr, hs, hv]
      · cases hv : ferr b <;> simp [partial_expect_instr, eq_false_of_ne_true hs, hv]

/-- C3 witness: on a 200 response, replacing the error-shape decoder (one that
decodes by one that fails) leaves the classification outcome unchanged. -/
theorem partial_expect_single_decode_witness :
    partial_expect (.completed "GET" "http://h/x" 200 "body")
      (fun _ => .ok (1 : Nat)) (fun _ => .ok (5 : Nat)) =
    partial_expect (.completed "GET" "http://h/x" 200 "body")
      (fun _ => .ok (1 : Nat)) (fun _ => .error "bad") :=
  (partial_expect_single_decode (.completed "GET" "http://h/x" 200 "body")
      (fun _ => .ok (1 : Nat)) (fun _ => .ok (1 : Nat))
      (fun _ => .ok (5 : Nat)) (fun _ => .error "bad")).1
    (fun m u s b h => by cases h; decide)

/-- C4: narrowing checks the context's status first — a mismatch yields
`ExpectedStatus` with the original context regardless of the variant; with a
matching status an `ErrorResponse` yields its decoded body; in every other
case (including the context-free transport variants, which bypass the status
check) the outcome is returned unchanged as the failure. -/
theorem try_into_err_resp_narrowing {ErrResp E : Type} (e : ClientErr ErrResp E)
    (expect_status : Nat) :
    (∀ ctx, e.context = some ctx → ctx.got_status ≠ expect_status →
      e.try_into_err_resp expect_status = .error (.ExpectedStatus ctx expect_status)) ∧
    (∀ (ctx : RespContext) (err_body : ErrResp), ctx.got_status = expect_status →
      (ClientErr.ErrorResponse (E := E) ctx err_body).try_into_err_resp expect_status =
        .ok err_body) ∧
    ((e.context = none ∨ ∃ ctx, e.context = some ctx ∧ ctx.got_status = expect_status) →
      (∀ ctx err_body, e ≠ .ErrorResponse ctx err_body) →
      e.try_into_err_resp expect_status = .error e) := by
  refine ⟨fun ctx hctx hne => ?_, fun ctx err_body heq => ?_, fun hok hnotstruct => ?_⟩
  · cases e <;> simp_all [ClientErr.context, ClientErr.try_into_err_resp,
      RespContext.expect_status]
  · simp [ClientErr.try_into_err_resp, ClientErr.context, RespContext.expect_status, heq]
  · rcases hok with hnone | ⟨ctx, hctx, heq⟩
    · cases e <;> simp_all [ClientErr.context, ClientErr.try_into_err_resp]
    · cases e <;>
        simp_all [ClientErr.context, ClientErr.try_into_err_resp, RespContext.expect_status]

/-- C4 witness: an `ErrorResponse` with matching status narrows to its decoded
body, and narrowing it against a different status yields `ExpectedStatus`. -/
theorem try_into_err_resp_narrowing_witness :
    (ClientErr.ErrorResponse (E := String)
      { method := "GET", url := "http://h/x", got_status := 400, response_text := "b" }
      (5 : Nat)).try_into_err_resp 400 = .ok 5 :=
  (try_into_err_resp_narrowing
      (ClientErr.ErrorResponse (E := String)
        { method := "GET", url := "http://h/x", got_status := 400, response_text := "b" }
        (5 : Nat)) 400).2.1
    { method := "GET", url := "http://h/x", got_status := 400, response_text := "b" } 5 rfl

/-- C5 counterexample: narrowing the already-narrowed
`ExpectedStatus { got_status = 404 } 400` against the now-correct status 404
does not succeed with a decoded `ErrShape` value — it returns the old
`ExpectedStatus` unchanged as a failure, contradicting the claim's second
disjunct. -/
theorem narrow_recheck_counterexample :
    ClientErr.try_into_err_resp
      (.ExpectedStatus
        { method := "GET", url := "http://h/x", got_status := 404, response_text := "b" }
        400 : ClientErr Nat String) 404 =
      .error (.ExpectedStatus
        { method := "GET", url := "http://h/x", got_status := 404, response_text := "b" }
        400) ∧
    (ClientErr.try_into_err_resp
      (.ExpectedStatus
        { method := "GET", url := "http://h/x", got_status := 404, response_text := "b" }
        400 : ClientErr Nat String) 404).isOk = false :=
  ⟨rfl, rfl⟩

/-- C5 amended: narrowing an already-narrowed `ExpectedStatus` with the same
expected status yields the same `ExpectedStatus` again while the status still
mismatches; re-checking against an expected status equal to the context's
status returns the original `ExpectedStatus` unchanged as a failure (the
decoded value was discarded by the first narrowing), never a decoded value. -/
theorem narrow_unexpected_status_idempotent {ErrResp E : Type} (ctx : RespContext)
    (old_expected expect_status : Nat) :
    (ctx.got_status ≠ expect_status →
      ClientErr.try_into_err_resp
        (.ExpectedStatus ctx old_expected : ClientErr ErrResp E) expect_status =
        .error (.ExpectedStatus ctx expect_status)) ∧
    (ctx.got_status = expect_status →
      ClientErr.try_into_err_resp
        (.ExpectedStatus ctx old_expected : ClientErr ErrResp E) expect_status =
        .error (.ExpectedStatus ctx old_expected)) := by
  constructor <;> intro h <;>
    simp [ClientErr.try_into_err_resp, ClientErr.context, RespContext.expect_status, h]

/-- C5 witness: re-narrowing `ExpectedStatus { got_status = 404 } 400` with the
same expected status 400 yields the same `ExpectedStatus` again. -/
theorem narrow_unexpected_status_idempotent_witness :
    ClientErr.try_into_err_resp
      (.ExpectedStatus
        { method := "GET", url := "http://h/x", got_status := 404, response_text := "b" }
        400 : ClientErr Nat String) 400 =
      .error (.ExpectedStatus
        { method := "GET", url := "http://h/x", got_status := 404, response_text := "b" }
        400) :=
  (narrow_unexpected_status_idempotent
      { method := "GET", url := "http://h/x", got_status := 404, response_text := "b" }
      400 400).1 (by decide)

/-- Every error produced by classifying a completed execution carries the full
context snapshot of that execution. -/
theorem partial_expect_error_context {Ok ErrResp E : Type} (m u : String) (s : Nat) (b : String)
    (fok : String → Except E Ok) (ferr : String → Except E ErrResp) (e : ClientErr ErrResp E)
    (h : partial_expect (.completed m u s b) fok ferr = .error e) :
    e.context = some { method := m, url := u, got_status := s, response_text := b } := by
  by_cases hs : is_success s
  · simp only [partial_expect, hs, not_true_eq_false, if_false, ite_false] at h
    cases hv : fok b with
    | ok v => rw [hv] at h; cases h
    | error de => rw [hv] at h; cases h; rfl
  · simp only [partial_expect, eq_false_of_ne_true hs, not_false_eq_true, if_true,
      ite_true] at h
    cases hv : ferr b with
    | ok v => rw [hv] at h; cases h; rfl
    | error de => rw [hv] at h; cases h; rfl

/-- A successful classification of a completed execution carries the full
context snapshot of that execution. -/
theorem partial_expect_ok_context {Ok ErrResp E : Type} (m u : String) (s : Nat) (b : String)
    (fok : String → Except E Ok) (ferr : String → Except E ErrResp)
    (ok : OkRespWithContext Ok)
    (h : partial_expect (.completed m u s b) fok ferr = .ok ok) :
    ok.context = { method := m, url := u, got_status := s, response_text := b } := by
  by_cases hs : is_success s
  · simp only [partial_expect, hs, not_true_eq_false, if_false, ite_false] at h
    cases hv : fok b with
    | ok v => rw [hv] at h; cases h; rfl
    | error de => rw [hv] at h; cases h
  · simp only [partial_expect, eq_false_of_ne_true hs, not_false_eq_true, if_true,
      ite_true] at h
    cases hv : ferr b with
    | ok v => rw [hv] at h; cases h
    | error de => rw [hv] at h; cases h

/-- Narrowing an error that carries a context produces an error carrying the
same context. -/
theorem try_into_err_resp_error_context {ErrResp E : Type} (e e' : ClientErr ErrResp E)
    (es : Nat) (ctx : RespContext) (hctx : e.context = some ctx)
    (h : e.try_into_err_resp es = .error e') : e'.context = some ctx := by
  cases e <;> by_cases hs : ctx.got_status = es <;>
    simp_all [ClientErr.try_into_err_resp, ClientErr.context, RespContext.expect_status] <;>
    (subst h; simp [ClientErr.context])

/-- The errors reachable through the public operations from one completed
execution with method `m`, url `u`, observed status `s` and raw body `b`:
classifier errors (`partial_expect`, whose errors `expect_ok` passes through
unchanged), `expect_err_resp` errors, and narrowing (`try_into_err_resp`,
which the `Result`-level combinator delegates to on error results). -/
inductive ReachableFrom {ErrResp E : Type} (m u : String) (s : Nat) (b : String) :
    ClientErr ErrResp E → Prop where
  | of_classify {Ok : Type} (from_str_ok : String → Except E Ok)
      (from_str_err : String → Except E ErrResp) (e : ClientErr ErrResp E) :
      partial_expect (.completed m u s b) from_str_ok from_str_err = .error e →
      ReachableFrom m u s b e
  | of_expect_err {Ok : Type} (from_str_ok : String → Except E Ok)
      (from_str_err : String → Except E ErrResp) (es : Nat) (e : ClientErr ErrResp E) :
      expect_err_resp (.completed m u s b) from_str_ok from_str_err es = .error e →
      ReachableFrom m u s b e
  | of_narrow (e e' : ClientErr ErrResp E) (es : Nat) :
      ReachableFrom m u s b e → e.try_into_err_resp es = .error e' →
      ReachableFrom m u s b e'

/-- C6 counterexample: through the public operations (classification of a
completed 200 execution, `expect_ok`, then the `Result`-level
`try_into_err_resp`), the non-transport variant `ExpectedErrorResponse` is
reached with `context() = none` — not a populated context. -/
theorem result_narrow_reachable_context_none :
    ResultExt.try_into_err_resp
      (expect_ok (.completed "GET" "http://h/x" 200 "7")
        (fun _ => (.ok 7 : Except String Nat)) (fun _ => (.ok 0 : Except String Nat))) 404 =
      .error (.ExpectedErrorResponse none) ∧
    ClientErr.context (.ExpectedErrorResponse none : ClientErr Nat String) = none :=
  ⟨rfl, rfl⟩

/-- C6 amended: every error reachable through the classifier,
`expect_err_resp` and error-narrowing from a completed execution carries via
`context()` the populated context of that execution, with `response_text` the
exact raw body; the sole exception is the `ExpectedErrorResponse` with
`context = none` that the `Result`-level `try_into_err_resp` builds from a
success result. -/
theorem reachable_err_context_populated {ErrResp E : Type} (m u : String) (s : Nat)
    (b : String) (e : ClientErr ErrResp E) (h : ReachableFrom m u s b e) :
    e.context = some { method := m, url := u, got_status := s, response_text := b } ∧
    e.response_text = some b := by
  have hc : e.context = some { method := m, url := u, got_status := s, response_text := b } := by
    induction h with
    | of_classify fok ferr e he => exact partial_expect_error_context m u s b fok ferr e he
    | of_expect_err fok ferr es e he =>
      rw [expect_err_resp] at he
      split at he
      · cases he
        rename_i ok heq
        simp [ClientErr.context, partial_expect_ok_context m u s b fok ferr ok heq]
      · rename_i err heq
        exact try_into_err_resp_error_context err e es _
          (partial_expect_error_context m u s b fok ferr err heq) he
    | of_narrow e e' es hr he ih => exact try_into_err_resp_error_context e e' es _ ih he
  exact ⟨hc, by simp [ClientErr.response_text, hc]⟩

/-- C6 amended witness: the `ErrorResponse` produced by classifying a
completed 404 execution carries the full context and the raw body. -/
theorem reachable_err_context_populated_witness :
    ClientErr.context
      (.ErrorResponse
        { method := "GET", url := "http://h/x", got_status := 404, response_text := "x" }
        5 : ClientErr Nat String) =
      some { method := "GET", url := "http://h/x", got_status := 404, response_text := "x" } ∧
    ClientErr.response_text
      (.ErrorResponse
        { method := "GET", url := "http://h/x", got_status := 404, response_text := "x" }
        5 : ClientErr Nat String) =
      some "x" :=
  reachable_err_context_populated "GET" "http://h/x" 404 "x" _
    (ReachableFrom.of_classify (fun _ => (.ok 0 : Except String Nat))
      (fun _ => (.ok 5 : Except String Nat)) _ rfl)

/-- C7: the two public short-hands agree with the classifier — `expect_ok`
returns exactly the `Ok` body when classification succeeds and the
classification's typed error otherwise; `expect_err_resp` turns an `Ok`
classification into `ExpectedErrorResponse` (with the response's context) and
otherwise narrows the error outcome against the expected status. -/
theorem shorthands_agree_with_classifier {Ok ErrResp E : Type} (t : TransportOutcome)
    (from_str_ok : String → Except E Ok) (from_str_err : String → Except E ErrResp)
    (expect_status : Nat) :
    (∀ ok, partial_expect t from_str_ok from_str_err = .ok ok →
      expect_ok t from_str_ok from_str_err = .ok ok.ok_body) ∧
    (∀ e, partial_expect t from_str_ok from_str_err = .error e →
      expect_ok t from_str_ok from_str_err = .error e) ∧
    (∀ ok, partial_expect t from_str_ok from_str_err = .ok ok →
      expect_err_resp t from_str_ok from_str_err expect_status =
        .error (.ExpectedErrorResponse (some ok.context))) ∧
    (∀ e, partial_expect t from_str_ok from_str_err = .error e →
      expect_err_resp t from_str_ok from_str_err expect_status =
        e.try_into_err_resp expect_status) := by
  refine ⟨fun ok h => ?_, fun e h => ?_, fun ok h => ?_, fun e h => ?_⟩ <;>
    simp [expect_ok, expect_err_resp, h, Except.map]

/-- C7 witness: on a 200 execution whose body decodes as `7`, `expect_ok`
returns `7`. -/
theorem shorthands_agree_with_classifier_witness :
    expect_ok (E := String) (.completed "GET" "http://h/x" 200 "7")
      (fun _ => .ok (7 : Nat)) (fun _ => .ok (0 : Nat)) = .ok 7 :=
  (shorthands_agree_with_classifier (.completed "GET" "http://h/x" 200 "7")
      (fun _ => .ok (7 : Nat)) (fun _ => .ok (0 : Nat)) 404).1
    { ok_body := 7,
      context := { method := "GET", url := "http://h/x", got_status := 200,
                   response_text := "7" } } rfl

/-- C8: `ApiClient::path` produces exactly the spec's formula — the
whitespace-trimmed base with trailing slashes removed, a single slash, then
the whitespace-trimmed path with leading slashes removed — illustrated on
concrete inputs. -/
theorem path_matches_join_spec :
    (∀ base_url url_path, path base_url url_path = join_spec base_url url_path) ∧
    path "https://x.io/v2/" "/pets" = "https://x.io/v2/pets" ∧
    path " base/// " " ///p/q " = "base/p/q" ∧
    path "b" "p" = "b/p" :=
  ⟨fun _ _ => rfl, by decide, by decide, by decide⟩

/-- C9: the rendering of any outcome error contains its one-line failure-kind
message, and — whenever a context is available — the method, the URL and the
raw response body text. -/
theorem display_includes_diagnostics {ErrResp E : Type} (show_err : ErrResp → String)
    (show_de : E → String) (e : ClientErr ErrResp E) :
    ContainsStr (e.display show_err show_de) (e.error_msg_core show_err show_de) ∧
    (∀ ctx, e.context = some ctx →
      ContainsStr (e.display show_err show_de) ctx.method ∧
      ContainsStr (e.display show_err show_de) ctx.url ∧
      ContainsStr (e.display show_err show_de) ctx.response_text) := by
  constructor
  · refine ⟨(match e.context with
      | some ctx => ctx.method ++ " " ++ ctx.url ++ "\n"
      | none => ""),
      "\n" ++ (match e.response_text with
      | some response_text => response_text ++ "\n"
      | none => ""), ?_⟩
    simp [ClientErr.display, String.append_assoc]
  · intro ctx hctx
    have hrt : e.response_text = some ctx.response_text := by
      simp [ClientErr.response_text, hctx]
    refine ⟨⟨"", " " ++ ctx.url ++ "\n" ++
        (e.error_msg_core show_err show_de ++ "\n") ++ (ctx.response_text ++ "\n"), ?_⟩,
      ⟨ctx.method ++ " ", "\n" ++
        (e.error_msg_core show_err show_de ++ "\n") ++ (ctx.response_text ++ "\n"), ?_⟩,
      ⟨(ctx.method ++ " " ++ ctx.url ++ "\n") ++ (e.error_msg_core show_err show_de ++ "\n"),
        "\n", ?_⟩⟩ <;>
      simp [ClientErr.display, hctx, hrt, String.append_assoc]

/-- C9 witness: the rendering of a concrete `ErrorResponse` contains its
method, URL and raw body text. -/
theorem display_includes_diagnostics_witness :
    ContainsStr
      (ClientErr.display (E := String) toString toString
        (.ErrorResponse
          { method := "GET", url := "http://h/x", got_status := 404, response_text := "oops" }
          (5 : Nat)))
      "GET" ∧
    ContainsStr
      (ClientErr.display (E := String) toString toString
        (.ErrorResponse
          { method := "GET", url := "http://h/x", got_status := 404, response_text := "oops" }
          (5 : Nat)))
      "http://h/x" ∧
    ContainsStr
      (ClientErr.display (E := String) toString toString
        (.ErrorResponse
          { method := "GET", url := "http://h/x", got_status := 404, response_text := "oops" }
          (5 : Nat)))
      "oops" :=
  (display_includes_diagnostics toString toString
      (.ErrorResponse
        { method := "GET", url := "http://h/x", got_status := 404, response_text := "oops" }
        (5 : Nat))).2
    { method := "GET", url := "http://h/x", got_status := 404, response_text := "oops" } rfl

/-- C10: the `Result`-level `try_into_err_resp` on a success result returns
`ExpectedErrorResponse` with `context = none`, whose `context()` and
`response_text()` are both `none` — even though the execution's classification
succeeded with a fully populated context before the `Ok` body was
extracted. -/
theorem result_narrow_on_ok_loses_context {Ok ErrResp E : Type} (v : Ok)
    (expect_status : Nat) (t : TransportOutcome)
    (from_str_ok : String → Except E Ok) (from_str_err : String → Except E ErrResp)
    (ok : OkRespWithContext Ok)
    (hok : partial_expect t from_str_ok from_str_err = .ok ok) (_hv : ok.ok_body = v) :
    ResultExt.try_into_err_resp (expect_ok t from_str_ok from_str_err) expect_status =
      .error (.ExpectedErrorResponse none) ∧
    ResultExt.try_into_err_resp (.ok v : Except (ClientErr ErrResp E) Ok)
      expect_status = .error (.ExpectedErrorResponse none) ∧
    ClientErr.context (.ExpectedErrorResponse none : ClientErr ErrResp E) = none ∧
    ClientErr.response_text (.ExpectedErrorResponse none : ClientErr ErrResp E) =
      none := by
  refine ⟨?_, rfl, rfl, rfl⟩
  simp [expect_ok, hok, ResultExt.try_into_err_resp, Except.map]

/-- C10 witness: a completed 200 execution whose body decodes as `7`. -/
theorem result_narrow_on_ok_loses_context_witness :
    ResultExt.try_into_err_resp
      (expect_ok (E := String) (.completed "GET" "http://h/x" 200 "7")
        (fun _ => .ok (7 : Nat)) (fun _ => .ok (0 : Nat))) 404 =
      .error (.ExpectedErrorResponse none) ∧
    ResultExt.try_into_err_resp (.ok 7 : Except (ClientErr Nat String) Nat) 404 =
      .error (.ExpectedErrorResponse none) ∧
    ClientErr.context (.ExpectedErrorResponse none : ClientErr Nat String) = none ∧
    ClientErr.response_text (.ExpectedErrorResponse none : ClientErr Nat String) =
      none :=
  result_narrow_on_ok_loses_context 7 404 (.completed "GET" "http://h/x" 200 "7")
    (fun _ => .ok (7 : Nat)) (fun _ => .ok (0 : Nat))
    { ok_body := 7,
      context := { method := "GET", url := "http://h/x", got_status := 200,
                   response_text := "7" } } rfl rfl

end ApiClientUtils
